import Mathlib

/-!
# Tower Stack Game — verification of the spec against the sources

Shallow embedding of the three programs of the repository:

* `tower_game.ino` (joystick sampler firmware; only its protocol output matters here),
* `tower_game/tower_game/tower_game.ino` — the servo/fan firmware (`Firmware` below),
* `tower_game.pde` — the vertical-fall game ("Variant A", namespace `VariantA`),
* `tower_game/tower_game_button.pde` — the horizontal-sweep game ("Variant B",
  namespace `VariantB`).

Processing `float` values are modelled by `ℚ` (the sources only add, subtract,
halve, compare, and take `min`/`max`/`abs`, so the embedding is exact on every
reachable value); Arduino `int`/`long` by `ℤ`; `millis()` timestamps by `ℕ`
(time is monotone, so the `unsigned long` subtraction `millis() - start` is
truncated `ℕ` subtraction).  Serial lines are `List Char`.  Rendering calls are
dropped: they read but never write the game state.
-/

/-! ## Placement judge (identical in `tower_game.pde` lines 180–190 and
`tower_game_button.pde` lines 279–289) -/

/-- Source `calculateOverlap` from the sources: 1-D overlap of the interval of width
`w1` centered at `x1` with the interval of width `w2` centered at `x2`,
clamped below at `0`. -/
def calculateOverlap (x1 w1 x2 w2 : ℚ) : ℚ :=
  let left1 := x1 - w1 / 2
  let right1 := x1 + w1 / 2
  let left2 := x2 - w2 / 2
  let right2 := x2 + w2 / 2
  let overlapLeft := max left1 left2
  let overlapRight := min right1 right2
  max 0 (overlapRight - overlapLeft)

/-- Spec-side definition (from the words of the spec, for comparison):
the length of the interval `[a, b]`, floored at zero. -/
def intervalLen (a b : ℚ) : ℚ := max 0 (b - a)

/-- Spec-side definition (from the words of the spec, for comparison):
the midpoint of the overlap region of the interval of width `w1` centered at
`x1` with the interval of width `w2` centered at `x2`. -/
def overlapRegionCenter (x1 w1 x2 w2 : ℚ) : ℚ :=
  (max (x1 - w1 / 2) (x2 - w2 / 2) + min (x1 + w1 / 2) (x2 + w2 / 2)) / 2

/-! ## Serial lines as character lists -/

/-- C `isspace` characters, used by Arduino `String::trim`. -/
def isSpaceChar (c : Char) : Bool :=
  c == ' ' || c == '\t' || c == '\n' || c == '\x0b' || c == '\x0c' || c == '\r'

/-- Java `String.trim` (used by Processing's `trim`) strips every character
with code point at most `U+0020` from both ends. -/
def isJavaSpace (c : Char) : Bool := decide (c.toNat ≤ 32)

/-- Arduino `String::trim`. -/
def arduinoTrim (cs : List Char) : List Char :=
  ((cs.dropWhile isSpaceChar).reverse.dropWhile isSpaceChar).reverse

/-- Processing/Java `trim`. -/
def javaTrim (cs : List Char) : List Char :=
  ((cs.dropWhile isJavaSpace).reverse.dropWhile isJavaSpace).reverse

/-- Source `String.startsWith` on character lists. -/
def startsWithList : List Char → List Char → Bool
  | _, [] => true
  | [], _ :: _ => false
  | c :: cs, p :: ps => c == p && startsWithList cs ps

/-- Accumulate leading decimal digits, stopping at the first non-digit
(the behaviour of C `atol` after sign handling). -/
def digitsVal : List Char → ℤ → ℤ
  | [], acc => acc
  | c :: cs, acc =>
      if c.isDigit then digitsVal cs (acc * 10 + ((c.toNat : ℤ) - 48)) else acc

/-- Arduino `String::toInt`, which is C `atol`: skip leading whitespace, read
an optional sign and then leading digits; a string with no leading digits
yields `0` (there is no failure signal). -/
def stringToInt (cs : List Char) : ℤ :=
  match cs.dropWhile isSpaceChar with
  | '-' :: rest => - digitsVal rest 0
  | '+' :: rest => digitsVal rest 0
  | rest => digitsVal rest 0

/-- The protocol tokens, as character lists. -/
def dropTok : List Char := ['D', 'R', 'O', 'P']

def leftTok : List Char := ['L', 'E', 'F', 'T']

def rightTok : List Char := ['R', 'I', 'G', 'H', 'T']

def resetTok : List Char := ['R', 'E', 'S', 'E', 'T']

def tiltTag : List Char := ['T', 'I', 'L', 'T', ':']

/-! ## Servo/fan firmware (`tower_game/tower_game/tower_game.ino`) -/

namespace Firmware

def SERVO_CENTER : ℤ := 90

def SERVO_MIN : ℤ := 70

def SERVO_MAX : ℤ := 110

def FAN_DURATION : ℕ := 3000

/-- The firmware globals that the claims are about: servo position state and
fan state.  The fan output pins track the `active` booleans one-for-one
(`digitalWrite` happens exactly when the flag is written), so the flags model
the pins as well. -/
structure ServoState where
  currentServoAngle : ℤ
  targetServoAngle : ℤ
  leftFanActive : Bool
  rightFanActive : Bool
  leftFanStartTime : ℕ
  rightFanStartTime : ℕ

/-- State after `setup()`. -/
def initServoState : ServoState :=
  { currentServoAngle := SERVO_CENTER
    targetServoAngle := SERVO_CENTER
    leftFanActive := false
    rightFanActive := false
    leftFanStartTime := 0
    rightFanStartTime := 0 }

/-- Arduino `map` on `long`s; C integer division truncates toward zero. -/
def arduinoMap (x inMin inMax outMin outMax : ℤ) : ℤ :=
  Int.tdiv ((x - inMin) * (outMax - outMin)) (inMax - inMin) + outMin

/-- Arduino `constrain`. -/
def constrain (amt low high : ℤ) : ℤ :=
  if amt < low then low else if high < amt then high else amt

/-- Source `updateTiltTarget` (lines 95–100). -/
def updateTiltTarget (tiltValue : ℤ) (s : ServoState) : ServoState :=
  let t := arduinoMap tiltValue (-100) 100 SERVO_MIN SERVO_MAX
  { s with targetServoAngle := constrain t SERVO_MIN SERVO_MAX }

/-- Source `activateLeftFan` (lines 128–132); `now` is the value of `millis()`. -/
def activateLeftFan (now : ℕ) (s : ServoState) : ServoState :=
  { s with leftFanActive := true, leftFanStartTime := now }

/-- Source `activateRightFan` (lines 134–138). -/
def activateRightFan (now : ℕ) (s : ServoState) : ServoState :=
  { s with rightFanActive := true, rightFanStartTime := now }

/-- Source `updateServoPosition` (lines 102–126): one motion tick.  The inner fan
checks read the already-incremented angle, as in the source. -/
def updateServoPosition (now : ℕ) (s : ServoState) : ServoState :=
  if s.currentServoAngle < s.targetServoAngle then
    let s1 := { s with currentServoAngle := s.currentServoAngle + 1 }
    if SERVO_CENTER + 3 < s1.currentServoAngle ∧ s1.leftFanActive = false then
      activateLeftFan now s1
    else s1
  else if s.targetServoAngle < s.currentServoAngle then
    let s1 := { s with currentServoAngle := s.currentServoAngle - 1 }
    if s1.currentServoAngle < SERVO_CENTER - 3 ∧ s1.rightFanActive = false then
      activateRightFan now s1
    else s1
  else s

/-- Source `updateFans` (lines 140–152). -/
def updateFans (now : ℕ) (s : ServoState) : ServoState :=
  let s1 :=
    if s.leftFanActive = true ∧ FAN_DURATION ≤ now - s.leftFanStartTime then
      { s with leftFanActive := false }
    else s
  if s1.rightFanActive = true ∧ FAN_DURATION ≤ now - s1.rightFanStartTime then
    { s1 with rightFanActive := false }
  else s1

/-- The serial branch of `loop()` (lines 74–92) applied to one received line. -/
def processSerialLine (line : List Char) (s : ServoState) : ServoState :=
  let data := arduinoTrim line
  if startsWithList data tiltTag = true then
    updateTiltTarget (stringToInt (data.drop 5)) s
  else if data = resetTok then
    { s with targetServoAngle := SERVO_CENTER }
  else s

/-- A sequence of motion ticks at the given `millis()` values. -/
def runTicks (times : List ℕ) (s : ServoState) : ServoState :=
  times.foldl (fun st t => updateServoPosition t st) s

/-- The spec's `ActuatorState` bounds invariant for the servo variant. -/
def ServoInv (s : ServoState) : Prop :=
  SERVO_MIN ≤ s.currentServoAngle ∧ s.currentServoAngle ≤ SERVO_MAX ∧
    SERVO_MIN ≤ s.targetServoAngle ∧ s.targetServoAngle ≤ SERVO_MAX

end Firmware

/-! ## Variant A: vertical-fall game (`tower_game.pde`) -/

namespace VariantA

/-- Sketch geometry: `size(800, 600)`. -/
def screenWidth : ℚ := 800

def blockHeight : ℚ := 30

/-- The `Block` class (color dropped: it is render-only). -/
structure Block where
  x : ℚ
  y : ℚ
  w : ℚ
  h : ℚ
  isFalling : Bool

/-- The `Platform` class. -/
structure Platform where
  x : ℚ
  y : ℚ
  w : ℚ
  h : ℚ

/-- The mutable game globals of `tower_game.pde`. -/
structure Game where
  currentBlock : Block
  stackedBlocks : List Block
  platform : Platform
  score : ℕ
  gameOver : Bool
  fallSpeed : ℚ
  blockWidth : ℚ

/-- Source `getTopOfStack` (lines 140–145). -/
def getTopOfStack (g : Game) : ℚ :=
  match g.stackedBlocks.getLast? with
  | none => g.platform.y
  | some b => b.y

/-- The `targetX` local of `dropBlock` (lines 151–152). -/
def targetX (g : Game) : ℚ :=
  match g.stackedBlocks.getLast? with
  | none => g.platform.x
  | some b => b.x

/-- The `targetWidth` local of `dropBlock` (lines 153–154). -/
def targetWidth (g : Game) : ℚ :=
  match g.stackedBlocks.getLast? with
  | none => g.platform.w
  | some b => b.w

/-- The `overlap` local of `dropBlock` (line 156). -/
def overlapAmount (g : Game) : ℚ :=
  calculateOverlap g.currentBlock.x g.currentBlock.w (targetX g) (targetWidth g)

/-- The landed block built by the success branch of `dropBlock`
(lines 161–165).  Note the source assigns `currentBlock.w = overlap` *before*
computing `currentBlock.x`, so the re-centering formula reads the already
trimmed width, not the original one. -/
def landedBlock (g : Game) : Block :=
  { g.currentBlock with
      y := getTopOfStack g - blockHeight
      w := overlapAmount g
      x := (max (g.currentBlock.x - overlapAmount g / 2) (targetX g - targetWidth g / 2) +
            min (g.currentBlock.x + overlapAmount g / 2) (targetX g + targetWidth g / 2)) / 2
      isFalling := false }

/-- Source `spawnNewBlock` (lines 134–138); `sx` stands for the `random(...)` result.
The `Block` constructor sets `isFalling = true`. -/
def spawnNewBlock (sx : ℚ) (g : Game) : Game :=
  { g with currentBlock := { x := sx, y := 0, w := g.blockWidth, h := blockHeight, isFalling := true } }

/-- Source `dropBlock` (lines 147–178); `sx` is the spawn abscissa drawn by
`spawnNewBlock` on success. -/
def dropBlock (sx : ℚ) (g : Game) : Game :=
  if g.gameOver then g
  else if 20 < overlapAmount g then
    spawnNewBlock sx
      { g with
          stackedBlocks := g.stackedBlocks ++ [landedBlock g]
          score := g.score + 1
          fallSpeed := g.fallSpeed + 1 / 10
          blockWidth := overlapAmount g }
  else { g with gameOver := true }

/-- Source `Block.moveLeft` (lines 264–268). -/
def moveLeft (b : Block) : Block :=
  if b.isFalling then { b with x := max (b.w / 2) (b.x - 10) } else b

/-- Source `Block.moveRight` (lines 270–274). -/
def moveRight (b : Block) : Block :=
  if b.isFalling then { b with x := min (screenWidth - b.w / 2) (b.x + 10) } else b

/-- Source `handleArduinoInput` (lines 106–114); the caller passes the line already
trimmed (line 59).  `sx` feeds a possible respawn inside `dropBlock`. -/
def handleArduinoInput (input : List Char) (sx : ℚ) (g : Game) : Game :=
  if input = leftTok then { g with currentBlock := moveLeft g.currentBlock }
  else if input = rightTok then { g with currentBlock := moveRight g.currentBlock }
  else if input = dropTok then dropBlock sx g
  else g

/-- Source `Block.update` (lines 250–254). -/
def blockUpdate (fallSpeed : ℚ) (b : Block) : Block :=
  if b.isFalling then { b with y := b.y + fallSpeed } else b

/-- The game-logic part of one `draw()` frame (lines 52–89): when the game is
not over, advance the falling block and auto-drop once it reaches the top of
the stack; when the game is over, only render. -/
def drawTick (sx : ℚ) (g : Game) : Game :=
  if g.gameOver then g
  else
    let g1 := { g with currentBlock := blockUpdate g.fallSpeed g.currentBlock }
    if getTopOfStack g1 - blockHeight ≤ g1.currentBlock.y then dropBlock sx g1 else g1

end VariantA

/-! ## Variant B: horizontal-sweep game (`tower_game/tower_game_button.pde`) -/

namespace VariantB

/-- Sketch geometry: `size(900, 700)`. -/
def screenWidth : ℚ := 900

def screenHeight : ℚ := 700

def blockHeight : ℚ := 30

def maxTowerOffset : ℚ := 100

def blockDescentAmount : ℚ := 20

/-- The `Block` class of the button variant (color dropped). -/
structure Block where
  x : ℚ
  y : ℚ
  w : ℚ
  h : ℚ
  isFalling : Bool
  targetY : ℚ
  hasTarget : Bool
  direction : ℚ
  misalignment : ℚ

/-- The `Block` constructor (lines 470–482). -/
def mkBlock (x y w h : ℚ) : Block :=
  { x := x, y := y, w := w, h := h
    isFalling := false
    hasTarget := false
    targetY := y
    misalignment := 0
    direction := if x < screenWidth / 2 then 1 else -1 }

structure Platform where
  x : ℚ
  y : ℚ
  w : ℚ
  h : ℚ

/-- The mutable game globals of `tower_game_button.pde`.  `committed` records
whether the `currentBlock` object is (by Java reference identity) a member of
`stackedBlocks` — in the source this is `stackedBlocks.contains(currentBlock)`;
when it holds, the current block aliases the last stack entry. -/
structure Game where
  currentBlock : Block
  stackedBlocks : List Block
  platform : Platform
  score : ℕ
  gameOver : Bool
  fallSpeed : ℚ
  blockSpeed : ℚ
  blockWidth : ℚ
  towerOffset : ℚ
  committed : Bool
  useArduino : Bool

/-- Source `spawnNewBlock` (lines 222–227). -/
def spawnNewBlock (g : Game) : Game :=
  let x := if g.score % 2 = 0 then -(g.blockWidth / 2) else screenWidth + g.blockWidth / 2
  { g with currentBlock := mkBlock x 150 g.blockWidth blockHeight, committed := false }

/-- Source `getTopOfStack` (lines 229–234). -/
def getTopOfStack (g : Game) : ℚ :=
  match g.stackedBlocks.getLast? with
  | none => g.platform.y
  | some b => b.y

/-- The `dropZoneLeft` local of `dropBlock` (line 241). -/
def dropZoneLeft (g : Game) : ℚ := g.platform.x - g.platform.w / 2 - 30

/-- The `dropZoneRight` local of `dropBlock` (line 242). -/
def dropZoneRight (g : Game) : ℚ := g.platform.x + g.platform.w / 2 + 30

/-- The `targetX` local of `dropBlock` (lines 246–247). -/
def targetX (g : Game) : ℚ :=
  match g.stackedBlocks.getLast? with
  | none => g.platform.x
  | some b => b.x

/-- The `targetWidth` local of `dropBlock` (lines 248–249). -/
def targetWidth (g : Game) : ℚ :=
  match g.stackedBlocks.getLast? with
  | none => g.platform.w
  | some b => b.w

/-- The `overlap` local of `dropBlock` (line 251). -/
def overlapAmount (g : Game) : ℚ :=
  calculateOverlap g.currentBlock.x g.currentBlock.w (targetX g) (targetWidth g)

/-- The `misalignment` local of `dropBlock` (line 255). -/
def misalignmentOf (g : Game) : ℚ := g.currentBlock.x - targetX g

/-- Source `dropBlock` (lines 236–277).  The source stores the computed misalignment
into `currentBlock.misalignment` *before* the prospective-tilt check, so the
early game-over return keeps that field mutation.  On success the very same
object is appended to `stackedBlocks` (`committed := true`). -/
def dropBlock (g : Game) : Game :=
  if g.gameOver then g
  else if g.currentBlock.isFalling || g.currentBlock.hasTarget then g
  else if dropZoneLeft g ≤ g.currentBlock.x ∧ g.currentBlock.x ≤ dropZoneRight g then
    if 20 < overlapAmount g then
      let cb := { g.currentBlock with misalignment := misalignmentOf g }
      if maxTowerOffset < |g.towerOffset + misalignmentOf g| then
        { g with currentBlock := cb, gameOver := true }
      else
        let cb2 := { cb with
          targetY := getTopOfStack g - blockHeight
          isFalling := true
          hasTarget := true }
        { g with
            currentBlock := cb2
            stackedBlocks := g.stackedBlocks ++ [cb2]
            committed := true }
    else { g with gameOver := true }
  else { g with gameOver := true }

/-- Source `handleArduinoInput` (lines 186–191): the button-variant host reacts to a
line that equals `"DROP"` *or merely starts with* `"DROP"`, and to nothing
else. -/
def handleArduinoInput (input : List Char) (g : Game) : Game :=
  let normalized := javaTrim input
  if normalized = dropTok ∨ startsWithList normalized dropTok = true then dropBlock g
  else g

/-- Source `Block.update` (lines 484–500). -/
def blockUpdate (fallSpeed blockSpeed : ℚ) (b : Block) : Block :=
  if b.isFalling = false ∧ b.hasTarget = false then
    { b with x := b.x + blockSpeed * b.direction }
  else if b.hasTarget then
    if b.y < b.targetY then
      let y1 := b.y + fallSpeed
      if b.targetY ≤ y1 then
        { b with y := b.targetY, hasTarget := false, isFalling := false }
      else { b with y := y1 }
    else b
  else b

/-- Source `Block.isOutOfBounds` (lines 523–525); note it reads the global
`blockWidth`, not the block's own width. -/
def isOutOfBounds (blockWidth : ℚ) (b : Block) : Prop :=
  b.x < -blockWidth ∨ screenWidth + blockWidth < b.x

instance (bw : ℚ) (b : Block) : Decidable (isOutOfBounds bw b) := by
  unfold isOutOfBounds; infer_instance

/-- Replace the last element of a list (the stack entry aliased by
`currentBlock` while it is committed). -/
def setLast : List Block → Block → List Block
  | [], _ => []
  | [_], b => [b]
  | x :: xs, b => x :: setLast xs b

/-- The per-block shift of the landing branch of `draw()` (lines 108–113). -/
def descendBlock (b : Block) : Block :=
  { b with
      y := b.y + blockDescentAmount
      targetY := if b.hasTarget then b.targetY + blockDescentAmount else b.targetY }

/-- The game-logic part of one `draw()` frame (lines 71–150, serial I/O
excluded): when the game is not over, advance the current block (and, through
aliasing, its stack entry when committed), commit the landing once the block
stops falling, then check the off-screen condition. -/
def drawTick (g : Game) : Game :=
  if g.gameOver then g
  else
    let cb := blockUpdate g.fallSpeed g.blockSpeed g.currentBlock
    let g1 := { g with
      currentBlock := cb
      stackedBlocks := if g.committed then setLast g.stackedBlocks cb else g.stackedBlocks }
    let g2 :=
      if cb.isFalling = false ∧ g.committed = true then
        spawnNewBlock
          { g1 with
              towerOffset := g1.towerOffset + cb.misalignment
              stackedBlocks := g1.stackedBlocks.map descendBlock
              platform := { g1.platform with y := g1.platform.y + blockDescentAmount }
              score := g1.score + 1
              blockSpeed := g1.blockSpeed + 1 / 5
              fallSpeed := g1.fallSpeed + 1 / 10 }
      else g1
    if isOutOfBounds g2.blockWidth g2.currentBlock then { g2 with gameOver := true } else g2

/-- The state set up by `setup()` (lines 53–69); `ua` is whether
`initializeArduino` found a peer. -/
def initGame (ua : Bool) : Game :=
  spawnNewBlock
    { currentBlock := mkBlock 0 0 0 0   -- replaced at once by spawnNewBlock
      stackedBlocks := []
      platform := { x := screenWidth / 2, y := screenHeight - 100, w := 120, h := 20 }
      score := 0
      gameOver := false
      fallSpeed := 5
      blockSpeed := 11 / 2
      blockWidth := 80
      towerOffset := 0
      committed := false
      useArduino := ua }

/-- Source `resetGame` (lines 437–457).  Returns the new state together with the line
written to the serial peer, if any.  Note the source resets `blockSpeed` to
`5.0` although the program starts it at `5.5`. -/
def resetGame (g : Game) : Game × Option (List Char) :=
  (spawnNewBlock
      { g with
          stackedBlocks := []
          score := 0
          gameOver := false
          fallSpeed := 5
          blockSpeed := 5
          blockWidth := 80
          towerOffset := 0
          platform := { g.platform with y := screenHeight - 100 }
          committed := false },
   if g.useArduino then some (resetTok ++ ['\n']) else none)

end VariantB

/-! ## Concrete states used by witnesses and counterexamples -/

/-- Variant B state: undropped block at `x = 465` over the platform, stack
empty, `towerOffset = 90`; its misalignment against the platform center is
`15`, so a drop is a prospective tilt overflow (`|90 + 15| > 100`). -/
def stateC1 : VariantB.Game :=
  { currentBlock := { x := 465, y := 150, w := 80, h := 30, isFalling := false,
                      targetY := 150, hasTarget := false, direction := -1, misalignment := 0 }
    stackedBlocks := []
    platform := { x := 450, y := 600, w := 120, h := 20 }
    score := 0, gameOver := false, fallSpeed := 5, blockSpeed := 11 / 2
    blockWidth := 80, towerOffset := 90, committed := false, useArduino := false }

/-- Variant B state like `stateC1` but whose current block is already
descending (`isFalling` and `hasTarget` set). -/
def stateC1f : VariantB.Game :=
  { currentBlock := { x := 465, y := 300, w := 80, h := 30, isFalling := true,
                      targetY := 540, hasTarget := true, direction := -1, misalignment := 15 }
    stackedBlocks := [{ x := 450, y := 570, w := 120, h := 30, isFalling := false,
                        targetY := 570, hasTarget := false, direction := 1, misalignment := 0 }]
    platform := { x := 450, y := 600, w := 120, h := 20 }
    score := 1, gameOver := false, fallSpeed := 5, blockSpeed := 11 / 2
    blockWidth := 80, towerOffset := 90, committed := false, useArduino := false }

/-- Variant B state whose current block is mid-descent (`hasTarget` set). -/
def stateC10 : VariantB.Game :=
  { currentBlock := { x := 440, y := 400, w := 80, h := 30, isFalling := true,
                      targetY := 570, hasTarget := true, direction := 1, misalignment := -10 }
    stackedBlocks := [{ x := 440, y := 400, w := 80, h := 30, isFalling := true,
                        targetY := 570, hasTarget := true, direction := 1, misalignment := -10 }]
    platform := { x := 450, y := 600, w := 120, h := 20 }
    score := 0, gameOver := false, fallSpeed := 5, blockSpeed := 11 / 2
    blockWidth := 80, towerOffset := 20, committed := true, useArduino := true }

/-- Variant B state with an undropped block far outside the drop zone
(`x = 100`), so a `DROP` is a bad-timing game-over. -/
def stateC6g : VariantB.Game :=
  { currentBlock := { x := 100, y := 150, w := 80, h := 30, isFalling := false,
                      targetY := 150, hasTarget := false, direction := 1, misalignment := 0 }
    stackedBlocks := []
    platform := { x := 450, y := 600, w := 120, h := 20 }
    score := 0, gameOver := false, fallSpeed := 5, blockSpeed := 11 / 2
    blockWidth := 80, towerOffset := 0, committed := false, useArduino := true }

/-- Firmware state whose target differs from the center remap of tilt `0`. -/
def servoC6 : Firmware.ServoState :=
  { currentServoAngle := 95, targetServoAngle := 100, leftFanActive := false,
    rightFanActive := false, leftFanStartTime := 0, rightFanStartTime := 0 }

/-- A mid-game Variant B state (non-zero score/tilt, sped up, game over). -/
def stateC7 : VariantB.Game :=
  { currentBlock := { x := 300, y := 150, w := 80, h := 30, isFalling := false,
                      targetY := 150, hasTarget := false, direction := 1, misalignment := 0 }
    stackedBlocks := [{ x := 450, y := 580, w := 120, h := 30, isFalling := false,
                        targetY := 580, hasTarget := false, direction := 1, misalignment := 5 }]
    platform := { x := 450, y := 580, w := 120, h := 20 }
    score := 3, gameOver := true, fallSpeed := 6, blockSpeed := 7
    blockWidth := 80, towerOffset := 42, committed := false, useArduino := true }

/-- Variant A state that is already game over, with a still-`isFalling`
current block (exactly what a failed drop leaves behind). -/
def stateC8a : VariantA.Game :=
  { currentBlock := { x := 400, y := 100, w := 80, h := 30, isFalling := true }
    stackedBlocks := []
    platform := { x := 400, y := 500, w := 120, h := 20 }
    score := 3, gameOver := true, fallSpeed := 2, blockWidth := 80 }

/-- Variant B state that is already game over. -/
def stateC8b : VariantB.Game :=
  { currentBlock := { x := 465, y := 150, w := 80, h := 30, isFalling := false,
                      targetY := 150, hasTarget := false, direction := -1, misalignment := 0 }
    stackedBlocks := []
    platform := { x := 450, y := 600, w := 120, h := 20 }
    score := 2, gameOver := true, fallSpeed := 5, blockSpeed := 11 / 2
    blockWidth := 80, towerOffset := 30, committed := false, useArduino := false }

/-- Variant A state about to drop with a partial overlap: block `x=0,w=80`
against stack top `x=50,w=80` (intervals `[-40,40]` and `[10,90]`, overlap
`30`, overlap region `[10,40]` centered at `25`). -/
def stateC5 : VariantA.Game :=
  { currentBlock := { x := 0, y := 300, w := 80, h := 30, isFalling := true }
    stackedBlocks := [{ x := 50, y := 470, w := 80, h := 30, isFalling := false }]
    platform := { x := 400, y := 500, w := 120, h := 20 }
    score := 1, gameOver := false, fallSpeed := 2, blockWidth := 80 }

/-! ## C2 — `calculateOverlap` computes the interval-intersection length -/

lemma calculateOverlap_eq (x1 w1 x2 w2 : ℚ) :
    calculateOverlap x1 w1 x2 w2 =
      max 0 (min (x1 + w1 / 2) (x2 + w2 / 2) - max (x1 - w1 / 2) (x2 - w2 / 2)) := rfl

/-- C2: `calculateOverlap(x1, w1, x2, w2)` is the length, floored at zero, of
the intersection of the intervals `[x1 - w1/2, x1 + w1/2]` and
`[x2 - w2/2, x2 + w2/2]`; it is `0` whenever the two intervals are disjoint,
and `min w1 w2` whenever one (genuine, i.e. nonnegative-width) interval fully
contains the other. -/
theorem calculateOverlap_interval_spec (x1 w1 x2 w2 : ℚ) :
    (Set.Icc (x1 - w1 / 2) (x1 + w1 / 2) ∩ Set.Icc (x2 - w2 / 2) (x2 + w2 / 2) =
      Set.Icc (max (x1 - w1 / 2) (x2 - w2 / 2)) (min (x1 + w1 / 2) (x2 + w2 / 2)))
    ∧ calculateOverlap x1 w1 x2 w2 =
        intervalLen (max (x1 - w1 / 2) (x2 - w2 / 2)) (min (x1 + w1 / 2) (x2 + w2 / 2))
    ∧ (Disjoint (Set.Icc (x1 - w1 / 2) (x1 + w1 / 2)) (Set.Icc (x2 - w2 / 2) (x2 + w2 / 2)) →
        calculateOverlap x1 w1 x2 w2 = 0)
    ∧ (0 ≤ w1 → 0 ≤ w2 →
        (Set.Icc (x1 - w1 / 2) (x1 + w1 / 2) ⊆ Set.Icc (x2 - w2 / 2) (x2 + w2 / 2) ∨
         Set.Icc (x2 - w2 / 2) (x2 + w2 / 2) ⊆ Set.Icc (x1 - w1 / 2) (x1 + w1 / 2)) →
        calculateOverlap x1 w1 x2 w2 = min w1 w2) := by
  refine ⟨?_, rfl, ?_, ?_⟩
  · rw [Set.Icc_inter_Icc, sup_eq_max, inf_eq_min]
  · intro hd
    have h1 := Set.disjoint_iff_inter_eq_empty.mp hd
    rw [Set.Icc_inter_Icc] at h1
    have h2 : ¬ (x1 - w1 / 2) ⊔ (x2 - w2 / 2) ≤ (x1 + w1 / 2) ⊓ (x2 + w2 / 2) := by
      intro hle
      exact (Set.nonempty_Icc.mpr hle).ne_empty h1
    rw [sup_eq_max, inf_eq_min] at h2
    rw [calculateOverlap_eq]
    have h3 : min (x1 + w1 / 2) (x2 + w2 / 2) - max (x1 - w1 / 2) (x2 - w2 / 2) ≤ 0 := by
      push_neg at h2
      linarith
    exact max_eq_left h3
  · intro hw1 hw2 hsub
    rcases hsub with hsub | hsub
    · have hne : x1 - w1 / 2 ≤ x1 + w1 / 2 := by linarith
      obtain ⟨hl, hr⟩ := (Set.Icc_subset_Icc_iff hne).mp hsub
      rw [calculateOverlap_eq, max_eq_left hl, min_eq_left hr]
      have hw : x1 + w1 / 2 - (x1 - w1 / 2) = w1 := by ring
      rw [hw, max_eq_right hw1, min_eq_left (by linarith)]
    · have hne : x2 - w2 / 2 ≤ x2 + w2 / 2 := by linarith
      obtain ⟨hl, hr⟩ := (Set.Icc_subset_Icc_iff hne).mp hsub
      rw [calculateOverlap_eq, max_eq_right hl, min_eq_right hr]
      have hw : x2 + w2 / 2 - (x2 - w2 / 2) = w2 := by ring
      rw [hw, max_eq_right hw2, min_eq_right (by linarith)]

/-- Witness for C2, at the spec's own scenarios: full containment
(block `x=405,w=80` on platform `x=400,w=120`) yields `min 80 120 = 80`, and
the disjoint pair (`x=500,w=80` vs `x=400,w=80`) yields `0`. -/
theorem calculateOverlap_interval_spec_witness :
    calculateOverlap 405 80 400 120 = min 80 120 ∧ calculateOverlap 500 80 400 80 = 0 := by
  constructor
  · exact (calculateOverlap_interval_spec 405 80 400 120).2.2.2 (by norm_num) (by norm_num)
      (Or.inl (Set.Icc_subset_Icc (by norm_num) (by norm_num)))
  · exact (calculateOverlap_interval_spec 500 80 400 80).2.2.1 (by
      rw [Set.disjoint_iff_inter_eq_empty, Set.Icc_inter_Icc]
      apply Set.Icc_eq_empty
      rw [sup_eq_max, inf_eq_min]
      norm_num)

/-! ## C3 — servo motion profile -/

namespace Firmware

lemma updateServoPosition_target (now : ℕ) (s : ServoState) :
    (updateServoPosition now s).targetServoAngle = s.targetServoAngle := by
  unfold updateServoPosition activateLeftFan activateRightFan
  dsimp only
  split_ifs <;> rfl

lemma updateServoPosition_current (now : ℕ) (s : ServoState) :
    (updateServoPosition now s).currentServoAngle =
      if s.currentServoAngle < s.targetServoAngle then s.currentServoAngle + 1
      else if s.targetServoAngle < s.currentServoAngle then s.currentServoAngle - 1
      else s.currentServoAngle := by
  unfold updateServoPosition activateLeftFan activateRightFan
  dsimp only
  split_ifs <;> rfl

lemma runTicks_nil (s : ServoState) : runTicks [] s = s := rfl

lemma runTicks_cons (t : ℕ) (ts : List ℕ) (s : ServoState) :
    runTicks (t :: ts) s = runTicks ts (updateServoPosition t s) := rfl

/-- Convergence: as many ticks as the initial distance land exactly on the
target (which the ticks never move). -/
lemma runTicks_converges : ∀ (times : List ℕ) (s : ServoState),
    (s.targetServoAngle - s.currentServoAngle).natAbs = times.length →
    (runTicks times s).currentServoAngle = s.targetServoAngle := by
  intro times
  induction times with
  | nil =>
    intro s h
    rw [runTicks_nil]
    simp only [List.length_nil] at h
    omega
  | cons t ts ih =>
    intro s h
    rw [runTicks_cons]
    have htg := updateServoPosition_target t s
    have hc := updateServoPosition_current t s
    have hd : ((updateServoPosition t s).targetServoAngle -
        (updateServoPosition t s).currentServoAngle).natAbs = ts.length := by
      rw [htg, hc]
      simp only [List.length_cons] at h
      split_ifs <;> omega
    rw [ih _ hd, htg]

/-- Ticks never take the current angle below the target when it starts at or
above it, and never change the target. -/
lemma runTicks_lower_bound : ∀ (times : List ℕ) (s : ServoState),
    s.targetServoAngle ≤ s.currentServoAngle →
    s.targetServoAngle ≤ (runTicks times s).currentServoAngle ∧
      (runTicks times s).targetServoAngle = s.targetServoAngle := by
  intro times
  induction times with
  | nil => intro s h; exact ⟨h, rfl⟩
  | cons t ts ih =>
    intro s h
    rw [runTicks_cons]
    have htg := updateServoPosition_target t s
    have hc := updateServoPosition_current t s
    have h1 : (updateServoPosition t s).targetServoAngle ≤
        (updateServoPosition t s).currentServoAngle := by
      rw [htg, hc]; split_ifs <;> omega
    obtain ⟨ha, hb⟩ := ih _ h1
    rw [hb, htg] at *
    exact ⟨ha, hb.trans htg⟩

/-- C3: one `updateServoPosition` tick leaves the target unchanged, moves the
current angle by at most one degree, strictly shrinks the distance to the
target whenever they differ, and never moves past the target (the new angle
stays between the old angle and the target).  With the target held fixed,
exactly `|current - target|` ticks reach the target.  In particular, from
`current = 90, target = 70`, the angle never drops below `70` and reaches
exactly `70` after `20` ticks. -/
theorem updateServoPosition_motion (now : ℕ) (s : ServoState) :
    (updateServoPosition now s).targetServoAngle = s.targetServoAngle
    ∧ ((updateServoPosition now s).currentServoAngle - s.currentServoAngle).natAbs ≤ 1
    ∧ (s.currentServoAngle ≠ s.targetServoAngle →
        (s.targetServoAngle - (updateServoPosition now s).currentServoAngle).natAbs <
          (s.targetServoAngle - s.currentServoAngle).natAbs)
    ∧ min s.currentServoAngle s.targetServoAngle ≤ (updateServoPosition now s).currentServoAngle
    ∧ (updateServoPosition now s).currentServoAngle ≤ max s.currentServoAngle s.targetServoAngle
    ∧ (∀ times : List ℕ,
        (s.targetServoAngle - s.currentServoAngle).natAbs = times.length →
        (runTicks times s).currentServoAngle = s.targetServoAngle)
    ∧ (s.currentServoAngle = 90 → s.targetServoAngle = 70 →
        (∀ times : List ℕ, 70 ≤ (runTicks times s).currentServoAngle)
        ∧ ∀ times : List ℕ, times.length = 20 →
            (runTicks times s).currentServoAngle = 70) := by
  have hc := updateServoPosition_current now s
  have htg := updateServoPosition_target now s
  refine ⟨htg, ?_, ?_, ?_, ?_, fun times h => runTicks_converges times s h, ?_⟩
  · rw [hc]; split_ifs <;> omega
  · intro hne; rw [hc]; split_ifs <;> omega
  · rw [hc]; rcases le_total s.currentServoAngle s.targetServoAngle with h | h <;>
      split_ifs <;> omega
  · rw [hc]; rcases le_total s.currentServoAngle s.targetServoAngle with h | h <;>
      split_ifs <;> omega
  · intro h90 h70
    constructor
    · intro times
      have := (runTicks_lower_bound times s (by rw [h90, h70]; norm_num)).1
      omega
    · intro times hlen
      have := runTicks_converges times s (by rw [h90, h70, hlen]; rfl)
      omega

end Firmware

/-- Witness for C3: from `current = 90, target = 70`, twenty ticks reach
exactly `70`, and after three ticks the angle is still at least `70`. -/
theorem updateServoPosition_motion_witness :
    (Firmware.runTicks (List.replicate 20 0)
        { currentServoAngle := 90, targetServoAngle := 70, leftFanActive := false,
          rightFanActive := false, leftFanStartTime := 0,
          rightFanStartTime := 0 }).currentServoAngle = 70
    ∧ 70 ≤ (Firmware.runTicks [0, 1, 2]
        { currentServoAngle := 90, targetServoAngle := 70, leftFanActive := false,
          rightFanActive := false, leftFanStartTime := 0,
          rightFanStartTime := 0 }).currentServoAngle := by
  constructor
  · exact ((Firmware.updateServoPosition_motion 0 _).2.2.2.2.2.2 rfl rfl).2
      (List.replicate 20 0) (by simp)
  · exact ((Firmware.updateServoPosition_motion 0 _).2.2.2.2.2.2 rfl rfl).1 [0, 1, 2]

/-! ## C4 — servo bounds invariant -/

namespace Firmware

lemma constrain_bounds (amt low high : ℤ) (h : low ≤ high) :
    low ≤ constrain amt low high ∧ constrain amt low high ≤ high := by
  unfold constrain
  split_ifs <;> omega

lemma updateTiltTarget_inv (v : ℤ) (s : ServoState) (h : ServoInv s) :
    ServoInv (updateTiltTarget v s) := by
  obtain ⟨h1, h2, -, -⟩ := h
  have hb := constrain_bounds (arduinoMap v (-100) 100 SERVO_MIN SERVO_MAX)
    SERVO_MIN SERVO_MAX (by norm_num [SERVO_MIN, SERVO_MAX])
  exact ⟨h1, h2, hb.1, hb.2⟩

lemma updateServoPosition_inv (now : ℕ) (s : ServoState) (h : ServoInv s) :
    ServoInv (updateServoPosition now s) := by
  obtain ⟨h1, h2, h3, h4⟩ := h
  have hc := updateServoPosition_current now s
  have ht := updateServoPosition_target now s
  refine ⟨?_, ?_, ?_, ?_⟩
  · rw [hc]; split_ifs <;> omega
  · rw [hc]; split_ifs <;> omega
  · rw [ht]; exact h3
  · rw [ht]; exact h4

lemma processSerialLine_inv (line : List Char) (s : ServoState) (h : ServoInv s) :
    ServoInv (processSerialLine line s) := by
  obtain ⟨h1, h2, h3, h4⟩ := h
  unfold processSerialLine
  dsimp only
  split_ifs
  · exact updateTiltTarget_inv _ s ⟨h1, h2, h3, h4⟩
  · exact ⟨h1, h2, by norm_num [SERVO_CENTER, SERVO_MIN], by norm_num [SERVO_CENTER, SERVO_MAX]⟩
  · exact ⟨h1, h2, h3, h4⟩

end Firmware

/-- C4: the initial firmware state satisfies the `[70, 110]` bounds invariant
on `currentServoAngle` and `targetServoAngle`, and the invariant is preserved
by `updateTiltTarget` for *every* integer tilt value (out-of-range values are
clamped by `constrain`, not rejected), by processing any serial line
(`TILT:` lines, `RESET`, and ignored lines alike), and by every motion tick. -/
theorem servo_bounds_invariant :
    Firmware.ServoInv Firmware.initServoState
    ∧ (∀ (v : ℤ) (s : Firmware.ServoState), Firmware.ServoInv s →
        Firmware.ServoInv (Firmware.updateTiltTarget v s))
    ∧ (∀ (line : List Char) (s : Firmware.ServoState), Firmware.ServoInv s →
        Firmware.ServoInv (Firmware.processSerialLine line s))
    ∧ (∀ (now : ℕ) (s : Firmware.ServoState), Firmware.ServoInv s →
        Firmware.ServoInv (Firmware.updateServoPosition now s)) :=
  ⟨⟨by norm_num [Firmware.initServoState, Firmware.SERVO_MIN, Firmware.SERVO_CENTER],
    by norm_num [Firmware.initServoState, Firmware.SERVO_CENTER, Firmware.SERVO_MAX],
    by norm_num [Firmware.initServoState, Firmware.SERVO_MIN, Firmware.SERVO_CENTER],
    by norm_num [Firmware.initServoState, Firmware.SERVO_CENTER, Firmware.SERVO_MAX]⟩,
   Firmware.updateTiltTarget_inv,
   Firmware.processSerialLine_inv,
   Firmware.updateServoPosition_inv⟩

/-- Witness for C4: starting from the initial state, a wildly out-of-range
`Tilt 5000` followed by a motion tick keeps both angles inside `[70, 110]`. -/
theorem servo_bounds_invariant_witness :
    Firmware.ServoInv
      (Firmware.updateServoPosition 7
        (Firmware.updateTiltTarget 5000 Firmware.initServoState)) :=
  servo_bounds_invariant.2.2.2 7 _
    (servo_bounds_invariant.2.1 5000 _ servo_bounds_invariant.1)

/-! ## C9 — fan activation is idempotent while active; auto-off after
`FAN_DURATION` -/

namespace Firmware

lemma updateServoPosition_leftFan (now : ℕ) (s : ServoState) (h : s.leftFanActive = true) :
    (updateServoPosition now s).leftFanActive = true ∧
      (updateServoPosition now s).leftFanStartTime = s.leftFanStartTime := by
  unfold updateServoPosition activateLeftFan activateRightFan
  dsimp only
  split_ifs <;> simp_all

lemma updateServoPosition_rightFan (now : ℕ) (s : ServoState) (h : s.rightFanActive = true) :
    (updateServoPosition now s).rightFanActive = true ∧
      (updateServoPosition now s).rightFanStartTime = s.rightFanStartTime := by
  unfold updateServoPosition activateLeftFan activateRightFan
  dsimp only
  split_ifs <;> simp_all

lemma runTicks_leftFan : ∀ (times : List ℕ) (s : ServoState), s.leftFanActive = true →
    (runTicks times s).leftFanActive = true ∧
      (runTicks times s).leftFanStartTime = s.leftFanStartTime := by
  intro times
  induction times with
  | nil => exact fun s h => ⟨h, rfl⟩
  | cons t ts ih =>
    intro s h
    rw [runTicks_cons]
    obtain ⟨h1, h2⟩ := updateServoPosition_leftFan t s h
    obtain ⟨h3, h4⟩ := ih _ h1
    exact ⟨h3, h4.trans h2⟩

lemma runTicks_rightFan : ∀ (times : List ℕ) (s : ServoState), s.rightFanActive = true →
    (runTicks times s).rightFanActive = true ∧
      (runTicks times s).rightFanStartTime = s.rightFanStartTime := by
  intro times
  induction times with
  | nil => exact fun s h => ⟨h, rfl⟩
  | cons t ts ih =>
    intro s h
    rw [runTicks_cons]
    obtain ⟨h1, h2⟩ := updateServoPosition_rightFan t s h
    obtain ⟨h3, h4⟩ := ih _ h1
    exact ⟨h3, h4.trans h2⟩

lemma updateFans_proj (now : ℕ) (s : ServoState) :
    (updateFans now s).leftFanActive =
      (if s.leftFanActive = true ∧ FAN_DURATION ≤ now - s.leftFanStartTime then false
       else s.leftFanActive)
    ∧ (updateFans now s).rightFanActive =
        (if s.rightFanActive = true ∧ FAN_DURATION ≤ now - s.rightFanStartTime then false
         else s.rightFanActive)
    ∧ (updateFans now s).leftFanStartTime = s.leftFanStartTime
    ∧ (updateFans now s).rightFanStartTime = s.rightFanStartTime := by
  unfold updateFans
  dsimp only
  split_ifs <;> exact ⟨rfl, rfl, rfl, rfl⟩

lemma updateFans_left (now : ℕ) (s : ServoState) (h : s.leftFanActive = true) :
    ((updateFans now s).leftFanActive = false ↔ s.leftFanStartTime + FAN_DURATION ≤ now) ∧
      (updateFans now s).leftFanStartTime = s.leftFanStartTime := by
  obtain ⟨hl, -, hls, -⟩ := updateFans_proj now s
  refine ⟨?_, hls⟩
  rw [hl]
  split_ifs with h1
  · exact iff_of_true rfl (by have := h1.2; have hD : FAN_DURATION = 3000 := rfl; omega)
  · have h2 : ¬ FAN_DURATION ≤ now - s.leftFanStartTime := fun hq => h1 ⟨h, hq⟩
    exact iff_of_false (by simp [h]) (by omega)

lemma updateFans_right (now : ℕ) (s : ServoState) (h : s.rightFanActive = true) :
    ((updateFans now s).rightFanActive = false ↔ s.rightFanStartTime + FAN_DURATION ≤ now) ∧
      (updateFans now s).rightFanStartTime = s.rightFanStartTime := by
  obtain ⟨-, hr, -, hrs⟩ := updateFans_proj now s
  refine ⟨?_, hrs⟩
  rw [hr]
  split_ifs with h1
  · exact iff_of_true rfl (by have := h1.2; have hD : FAN_DURATION = 3000 := rfl; omega)
  · have h2 : ¬ FAN_DURATION ≤ now - s.rightFanStartTime := fun hq => h1 ⟨h, hq⟩
    exact iff_of_false (by simp [h]) (by omega)

end Firmware

/-- C9: while a fan is active, a motion tick (the code that contains the
threshold-crossing detection) never re-activates it and never re-arms its
activation timestamp — over any sequence of ticks, and likewise under any
`TILT:` target update; consequently `updateFans` turns the fan off exactly
when `FAN_DURATION` has elapsed since the *original* activation time, which
the preceding ticks have kept unchanged. -/
theorem fan_activation_idempotent (now : ℕ) (s : Firmware.ServoState) :
    (s.leftFanActive = true →
      (Firmware.updateServoPosition now s).leftFanActive = true ∧
        (Firmware.updateServoPosition now s).leftFanStartTime = s.leftFanStartTime)
    ∧ (s.rightFanActive = true →
        (Firmware.updateServoPosition now s).rightFanActive = true ∧
          (Firmware.updateServoPosition now s).rightFanStartTime = s.rightFanStartTime)
    ∧ (∀ times : List ℕ, s.leftFanActive = true →
        (Firmware.runTicks times s).leftFanActive = true ∧
          (Firmware.runTicks times s).leftFanStartTime = s.leftFanStartTime)
    ∧ (∀ times : List ℕ, s.rightFanActive = true →
        (Firmware.runTicks times s).rightFanActive = true ∧
          (Firmware.runTicks times s).rightFanStartTime = s.rightFanStartTime)
    ∧ (∀ v : ℤ,
        (Firmware.updateTiltTarget v s).leftFanActive = s.leftFanActive ∧
          (Firmware.updateTiltTarget v s).leftFanStartTime = s.leftFanStartTime ∧
          (Firmware.updateTiltTarget v s).rightFanActive = s.rightFanActive ∧
          (Firmware.updateTiltTarget v s).rightFanStartTime = s.rightFanStartTime)
    ∧ (s.leftFanActive = true →
        ((Firmware.updateFans now s).leftFanActive = false ↔
          s.leftFanStartTime + Firmware.FAN_DURATION ≤ now))
    ∧ (s.rightFanActive = true →
        ((Firmware.updateFans now s).rightFanActive = false ↔
          s.rightFanStartTime + Firmware.FAN_DURATION ≤ now)) :=
  ⟨Firmware.updateServoPosition_leftFan now s,
   Firmware.updateServoPosition_rightFan now s,
   fun times h => Firmware.runTicks_leftFan times s h,
   fun times h => Firmware.runTicks_rightFan times s h,
   fun _ => ⟨rfl, rfl, rfl, rfl⟩,
   fun h => (Firmware.updateFans_left now s h).1,
   fun h => (Firmware.updateFans_right now s h).1⟩

/-- Witness for C9: a state whose left fan went active at `millis() = 100`
keeps `leftFanActive` and its timestamp across five motion ticks, and
`updateFans` turns it off at `millis() = 3100` (exactly `FAN_DURATION` past
activation) but not at `3099`. -/
theorem fan_activation_idempotent_witness :
    (Firmware.runTicks [200, 300, 400, 500, 600]
        { currentServoAngle := 95, targetServoAngle := 110, leftFanActive := true,
          rightFanActive := false, leftFanStartTime := 100,
          rightFanStartTime := 0 }).leftFanActive = true
    ∧ (Firmware.runTicks [200, 300, 400, 500, 600]
        { currentServoAngle := 95, targetServoAngle := 110, leftFanActive := true,
          rightFanActive := false, leftFanStartTime := 100,
          rightFanStartTime := 0 }).leftFanStartTime = 100
    ∧ (Firmware.updateFans 3100
        { currentServoAngle := 95, targetServoAngle := 110, leftFanActive := true,
          rightFanActive := false, leftFanStartTime := 100,
          rightFanStartTime := 0 }).leftFanActive = false
    ∧ ¬ (Firmware.updateFans 3099
        { currentServoAngle := 95, targetServoAngle := 110, leftFanActive := true,
          rightFanActive := false, leftFanStartTime := 100,
          rightFanStartTime := 0 }).leftFanActive = false := by
  refine ⟨?_, ?_, ?_, ?_⟩
  · exact ((fan_activation_idempotent 0 _).2.2.1 [200, 300, 400, 500, 600] rfl).1
  · exact ((fan_activation_idempotent 0 _).2.2.1 [200, 300, 400, 500, 600] rfl).2
  · exact ((fan_activation_idempotent 3100 _).2.2.2.2.2.1 rfl).mpr
      (by norm_num [Firmware.FAN_DURATION])
  · intro hoff
    have := ((fan_activation_idempotent 3099 _).2.2.2.2.2.1 rfl).mp hoff
    norm_num [Firmware.FAN_DURATION] at this

/-! ## C10 — Variant B ignores `Drop` while the block is descending -/

/-- C10: in Variant B, if the current block is already descending
(`isFalling` or `hasTarget` set), `dropBlock` returns the state unchanged —
no game-over, no stack change, no tilt change, no score change. -/
theorem dropBlock_ignored_while_descending (g : VariantB.Game)
    (h : g.currentBlock.isFalling = true ∨ g.currentBlock.hasTarget = true) :
    VariantB.dropBlock g = g := by
  unfold VariantB.dropBlock
  dsimp only
  split_ifs with h1 h2 <;>
    first
      | rfl
      | (rcases h with h | h <;> simp [h] at h2)

/-- Witness for C10: a committed, mid-descent block; `dropBlock` is the
identity there. -/
theorem dropBlock_ignored_while_descending_witness :
    VariantB.dropBlock stateC10 = stateC10 :=
  dropBlock_ignored_while_descending stateC10 (Or.inl rfl)

/-! ## C1 — Variant B prospective tilt overflow aborts before commit -/

/-- C1 (amended): in Variant B, from a non-game-over state whose current
block is not yet descending, is inside the drop zone, and overlaps the target
by more than `20`: if the prospective tilt `|towerOffset + misalignment|`
exceeds `maxTowerOffset`, then `dropBlock` sets `gameOver` and changes
nothing else *except* the current block's `misalignment` field, which the
source assigns before the overflow check; in particular the block is not
appended to the stack and neither `towerOffset` nor `score` changes. -/
theorem dropBlock_tilt_overflow (g : VariantB.Game)
    (hgo : g.gameOver = false)
    (hfall : g.currentBlock.isFalling = false)
    (htag : g.currentBlock.hasTarget = false)
    (hzoneL : VariantB.dropZoneLeft g ≤ g.currentBlock.x)
    (hzoneR : g.currentBlock.x ≤ VariantB.dropZoneRight g)
    (hov : 20 < VariantB.overlapAmount g)
    (htilt : VariantB.maxTowerOffset < |g.towerOffset + VariantB.misalignmentOf g|) :
    VariantB.dropBlock g =
      { g with
          gameOver := true
          currentBlock := { g.currentBlock with misalignment := VariantB.misalignmentOf g } }
    ∧ (VariantB.dropBlock g).stackedBlocks = g.stackedBlocks
    ∧ (VariantB.dropBlock g).towerOffset = g.towerOffset
    ∧ (VariantB.dropBlock g).score = g.score := by
  have hmain : VariantB.dropBlock g =
      { g with
          gameOver := true
          currentBlock := { g.currentBlock with misalignment := VariantB.misalignmentOf g } } := by
    unfold VariantB.dropBlock
    rw [if_neg (by simp [hgo]), if_neg (by simp [hfall, htag]),
        if_pos ⟨hzoneL, hzoneR⟩, if_pos hov]
    dsimp only
    rw [if_pos htilt]
  exact ⟨hmain, by rw [hmain], by rw [hmain], by rw [hmain]⟩

/-- Witness for C1 (amended) at `stateC1`: the drop aborts into game over,
the stack stays empty, tilt and score keep their values. -/
theorem dropBlock_tilt_overflow_witness :
    VariantB.dropBlock stateC1 =
      { stateC1 with
          gameOver := true
          currentBlock :=
            { stateC1.currentBlock with misalignment := VariantB.misalignmentOf stateC1 } }
    ∧ (VariantB.dropBlock stateC1).stackedBlocks = stateC1.stackedBlocks
    ∧ (VariantB.dropBlock stateC1).towerOffset = stateC1.towerOffset
    ∧ (VariantB.dropBlock stateC1).score = stateC1.score :=
  dropBlock_tilt_overflow stateC1 rfl rfl rfl
    (by norm_num [VariantB.dropZoneLeft, stateC1])
    (by norm_num [VariantB.dropZoneRight, stateC1])
    (by norm_num [VariantB.overlapAmount, VariantB.targetX, VariantB.targetWidth,
      calculateOverlap, stateC1])
    (by norm_num [VariantB.maxTowerOffset, VariantB.misalignmentOf, VariantB.targetX, stateC1])

/-- Counterexample to C1 as stated.  First, at `stateC1` every premise of the
claim holds and the drop does set `gameOver`, yet the state is *not* otherwise
unchanged: the current block's `misalignment` field changes from `0` to `15`.
Second, the claim also fails without the "not already descending" guard it
leaves implicit: at `stateC1f` (same geometry, block already descending) all
the claim's premises hold but `dropBlock` is the identity and `gameOver`
stays `false`. -/
theorem dropBlock_tilt_overflow_cex :
    (stateC1.gameOver = false
      ∧ VariantB.dropZoneLeft stateC1 ≤ stateC1.currentBlock.x
      ∧ stateC1.currentBlock.x ≤ VariantB.dropZoneRight stateC1
      ∧ 20 < VariantB.overlapAmount stateC1
      ∧ VariantB.maxTowerOffset < |stateC1.towerOffset + VariantB.misalignmentOf stateC1|
      ∧ (VariantB.dropBlock stateC1).gameOver = true
      ∧ stateC1.currentBlock.misalignment = 0
      ∧ (VariantB.dropBlock stateC1).currentBlock.misalignment = 15)
    ∧ (stateC1f.gameOver = false
      ∧ VariantB.dropZoneLeft stateC1f ≤ stateC1f.currentBlock.x
      ∧ stateC1f.currentBlock.x ≤ VariantB.dropZoneRight stateC1f
      ∧ 20 < VariantB.overlapAmount stateC1f
      ∧ VariantB.maxTowerOffset < |stateC1f.towerOffset + VariantB.misalignmentOf stateC1f|
      ∧ VariantB.dropBlock stateC1f = stateC1f
      ∧ (VariantB.dropBlock stateC1f).gameOver = false) := by
  constructor
  · refine ⟨rfl, ?_, ?_, ?_, ?_, ?_, rfl, ?_⟩
    · norm_num [VariantB.dropZoneLeft, stateC1]
    · norm_num [VariantB.dropZoneRight, stateC1]
    · norm_num [VariantB.overlapAmount, VariantB.targetX, VariantB.targetWidth,
        calculateOverlap, stateC1]
    · norm_num [VariantB.maxTowerOffset, VariantB.misalignmentOf, VariantB.targetX, stateC1]
    · norm_num [VariantB.dropBlock, VariantB.dropZoneLeft, VariantB.dropZoneRight,
        VariantB.overlapAmount, VariantB.targetX, VariantB.targetWidth,
        VariantB.misalignmentOf, VariantB.maxTowerOffset, calculateOverlap, stateC1]
    · norm_num [VariantB.dropBlock, VariantB.dropZoneLeft, VariantB.dropZoneRight,
        VariantB.overlapAmount, VariantB.targetX, VariantB.targetWidth,
        VariantB.misalignmentOf, VariantB.maxTowerOffset, calculateOverlap, stateC1]
  · have hid : VariantB.dropBlock stateC1f = stateC1f := by
      unfold VariantB.dropBlock
      dsimp only
      rw [if_neg (by simp [stateC1f]), if_pos (by simp [stateC1f])]
    refine ⟨rfl, ?_, ?_, ?_, ?_, hid, by rw [hid]; rfl⟩
    · norm_num [VariantB.dropZoneLeft, stateC1f]
    · norm_num [VariantB.dropZoneRight, stateC1f]
    · norm_num [VariantB.overlapAmount, VariantB.targetX, VariantB.targetWidth,
        calculateOverlap, stateC1f]
    · norm_num [VariantB.maxTowerOffset, VariantB.misalignmentOf, VariantB.targetX, stateC1f]

/-! ## C5 — Variant A success trims to the overlap -/

lemma calculateOverlap_le (x1 w1 x2 w2 : ℚ) (h : 0 < calculateOverlap x1 w1 x2 w2) :
    calculateOverlap x1 w1 x2 w2 ≤ w1 ∧ calculateOverlap x1 w1 x2 w2 ≤ w2 := by
  rw [calculateOverlap_eq] at h ⊢
  have h1 := min_le_left (x1 + w1 / 2) (x2 + w2 / 2)
  have h2 := min_le_right (x1 + w1 / 2) (x2 + w2 / 2)
  have h3 := le_max_left (x1 - w1 / 2) (x2 - w2 / 2)
  have h4 := le_max_right (x1 - w1 / 2) (x2 - w2 / 2)
  rcases max_cases (0 : ℚ)
      (min (x1 + w1 / 2) (x2 + w2 / 2) - max (x1 - w1 / 2) (x2 - w2 / 2)) with
    ⟨he, -⟩ | ⟨he, -⟩ <;> rw [he] at h ⊢ <;> constructor <;> linarith

/-- C5 (amended): in Variant A, a successful drop (overlap `> 20`) appends a
landed block whose width is exactly the overlap, re-centers it to the middle
of the intersection of the *already-trimmed* interval (width = overlap, still
centered on the dropped abscissa) with the target interval — the source
assigns `currentBlock.w = overlap` before computing `currentBlock.x`, so the
original width plays no part in the re-centering — sets the global
`blockWidth` to the overlap so the next spawned block has that width, and the
overlap never exceeds either the dropped block's width or the target's width,
so stacked widths never increase. -/
theorem dropBlock_trims_to_overlap (sx : ℚ) (g : VariantA.Game)
    (hgo : g.gameOver = false) (hov : 20 < VariantA.overlapAmount g) :
    VariantA.dropBlock sx g =
      VariantA.spawnNewBlock sx
        { g with
            stackedBlocks := g.stackedBlocks ++ [VariantA.landedBlock g]
            score := g.score + 1
            fallSpeed := g.fallSpeed + 1 / 10
            blockWidth := VariantA.overlapAmount g }
    ∧ (VariantA.landedBlock g).w = VariantA.overlapAmount g
    ∧ (VariantA.landedBlock g).x =
        overlapRegionCenter g.currentBlock.x (VariantA.overlapAmount g)
          (VariantA.targetX g) (VariantA.targetWidth g)
    ∧ (VariantA.dropBlock sx g).blockWidth = VariantA.overlapAmount g
    ∧ (VariantA.dropBlock sx g).currentBlock.w = VariantA.overlapAmount g
    ∧ VariantA.overlapAmount g ≤ VariantA.targetWidth g
    ∧ VariantA.overlapAmount g ≤ g.currentBlock.w := by
  have hmain : VariantA.dropBlock sx g =
      VariantA.spawnNewBlock sx
        { g with
            stackedBlocks := g.stackedBlocks ++ [VariantA.landedBlock g]
            score := g.score + 1
            fallSpeed := g.fallSpeed + 1 / 10
            blockWidth := VariantA.overlapAmount g } := by
    unfold VariantA.dropBlock
    rw [if_neg (by simp [hgo]), if_pos hov]
  have hle := calculateOverlap_le g.currentBlock.x g.currentBlock.w
    (VariantA.targetX g) (VariantA.targetWidth g) (by
      have : (0 : ℚ) < 20 := by norm_num
      exact lt_trans this hov)
  exact ⟨hmain, rfl, rfl, by rw [hmain]; rfl, by rw [hmain]; rfl, hle.2, hle.1⟩

/-- Witness for C5 (amended) at `stateC5`: the landed width and the next
`blockWidth` equal the overlap (`30`), which does not exceed the target's
width. -/
theorem dropBlock_trims_to_overlap_witness :
    (VariantA.landedBlock stateC5).w = VariantA.overlapAmount stateC5
    ∧ (VariantA.dropBlock 400 stateC5).blockWidth = VariantA.overlapAmount stateC5
    ∧ (VariantA.dropBlock 400 stateC5).currentBlock.w = VariantA.overlapAmount stateC5
    ∧ VariantA.overlapAmount stateC5 ≤ VariantA.targetWidth stateC5 := by
  have h := dropBlock_trims_to_overlap 400 stateC5 rfl
    (by norm_num [VariantA.overlapAmount, VariantA.targetX, VariantA.targetWidth,
      calculateOverlap, stateC5])
  exact ⟨h.2.1, h.2.2.2.1, h.2.2.2.2.1, h.2.2.2.2.2.1⟩

/-- Counterexample to C5 as stated.  At `stateC5` the drop succeeds
(overlap `30 > 20`) and the landed block is appended, but its center is
`25/2`, not the center `25` of the overlap region of the dropped block's
*original* interval (`[-40, 40]`) with the target's interval (`[10, 90]`):
the source trims `currentBlock.w` to the overlap *before* re-centering, so
the re-centering formula uses the trimmed interval `[-15, 15]` instead. -/
theorem dropBlock_trims_to_overlap_cex :
    stateC5.gameOver = false
    ∧ 20 < VariantA.overlapAmount stateC5
    ∧ (VariantA.dropBlock 400 stateC5).stackedBlocks =
        stateC5.stackedBlocks ++ [VariantA.landedBlock stateC5]
    ∧ (VariantA.landedBlock stateC5).x = 25 / 2
    ∧ overlapRegionCenter stateC5.currentBlock.x stateC5.currentBlock.w
        (VariantA.targetX stateC5) (VariantA.targetWidth stateC5) = 25
    ∧ (VariantA.landedBlock stateC5).x ≠
        overlapRegionCenter stateC5.currentBlock.x stateC5.currentBlock.w
          (VariantA.targetX stateC5) (VariantA.targetWidth stateC5) := by
  have hov : 20 < VariantA.overlapAmount stateC5 := by
    norm_num [VariantA.overlapAmount, VariantA.targetX, VariantA.targetWidth,
      calculateOverlap, stateC5]
  have hx : (VariantA.landedBlock stateC5).x = 25 / 2 := by
    norm_num [VariantA.landedBlock, VariantA.overlapAmount, VariantA.targetX,
      VariantA.targetWidth, VariantA.getTopOfStack, calculateOverlap, stateC5]
  have hc : overlapRegionCenter stateC5.currentBlock.x stateC5.currentBlock.w
      (VariantA.targetX stateC5) (VariantA.targetWidth stateC5) = 25 := by
    norm_num [overlapRegionCenter, VariantA.targetX, VariantA.targetWidth, stateC5]
  refine ⟨rfl, hov, ?_, hx, hc, ?_⟩
  · unfold VariantA.dropBlock
    rw [if_neg (by simp [stateC5]), if_pos hov]
    rfl
  · rw [hx, hc]
    norm_num

/-! ## C7 — reset restores the initial state (except `blockSpeed`) -/

/-- C7 (amended): from *any* Variant B state, `resetGame` restores
`score = 0`, an empty stack, `towerOffset = 0`, `gameOver = false`,
`fallSpeed = 5.0` (the value the program starts with) and `blockWidth = 80`,
re-seats the platform, spawns a fresh width-80 block, keeps the peer flag and
emits the `RESET` line exactly when a peer is connected — but it sets
`blockSpeed` to `5.0`, *not* the `5.5` the program starts with. -/
theorem resetGame_restores (g : VariantB.Game) :
    (VariantB.resetGame g).1.score = 0
    ∧ (VariantB.resetGame g).1.stackedBlocks = []
    ∧ (VariantB.resetGame g).1.towerOffset = 0
    ∧ (VariantB.resetGame g).1.gameOver = false
    ∧ (VariantB.resetGame g).1.fallSpeed = 5
    ∧ (VariantB.resetGame g).1.blockSpeed = 5
    ∧ (VariantB.resetGame g).1.blockWidth = 80
    ∧ (VariantB.resetGame g).1.platform.y = VariantB.screenHeight - 100
    ∧ (VariantB.resetGame g).1.currentBlock =
        VariantB.mkBlock (-(80 / 2)) 150 80 VariantB.blockHeight
    ∧ (VariantB.resetGame g).1.useArduino = g.useArduino
    ∧ (VariantB.resetGame g).2 = (if g.useArduino then some (resetTok ++ ['\n']) else none)
    ∧ (VariantB.initGame g.useArduino).fallSpeed = 5
    ∧ (VariantB.initGame g.useArduino).blockSpeed = 11 / 2 :=
  ⟨rfl, rfl, rfl, rfl, rfl, rfl, rfl, rfl, rfl, rfl, rfl, rfl, rfl⟩

/-- Counterexample to C7 as stated: the program starts with
`blockSpeed = 5.5` (line 35 of the source), but `resetGame` sets it to `5.0`,
so reset does *not* restore the speeds to the constants the program starts
with. -/
theorem resetGame_restores_cex :
    (VariantB.initGame true).blockSpeed = 11 / 2
    ∧ (VariantB.resetGame stateC7).1.blockSpeed = 5
    ∧ (VariantB.resetGame stateC7).1.blockSpeed ≠ (VariantB.initGame true).blockSpeed := by
  have h1 : (VariantB.resetGame stateC7).1.blockSpeed = 5 := rfl
  have h2 : (VariantB.initGame true).blockSpeed = 11 / 2 := rfl
  refine ⟨h2, h1, ?_⟩
  rw [h1, h2]
  norm_num

/-! ## C8 — game over is terminal (with one exception) -/

/-- C8 (amended): with `gameOver` set, a frame tick of either variant leaves
the state unchanged, `dropBlock` of either variant is the identity, and every
serial line is ignored by the Variant B handler; the Variant A serial handler
never processes a drop and never changes score, stack, speeds or the
game-over flag — but (the uncorrectable part of the claim) it may still move
the current block, see the counterexample. -/
theorem gameOver_is_terminal :
    (∀ (sx : ℚ) (g : VariantA.Game), g.gameOver = true → VariantA.drawTick sx g = g)
    ∧ (∀ g : VariantB.Game, g.gameOver = true → VariantB.drawTick g = g)
    ∧ (∀ (sx : ℚ) (g : VariantA.Game), g.gameOver = true → VariantA.dropBlock sx g = g)
    ∧ (∀ g : VariantB.Game, g.gameOver = true → VariantB.dropBlock g = g)
    ∧ (∀ (line : List Char) (g : VariantB.Game), g.gameOver = true →
        VariantB.handleArduinoInput line g = g)
    ∧ (∀ (line : List Char) (sx : ℚ) (g : VariantA.Game), g.gameOver = true →
        (VariantA.handleArduinoInput line sx g).score = g.score
        ∧ (VariantA.handleArduinoInput line sx g).stackedBlocks = g.stackedBlocks
        ∧ (VariantA.handleArduinoInput line sx g).gameOver = true
        ∧ (VariantA.handleArduinoInput line sx g).blockWidth = g.blockWidth
        ∧ (VariantA.handleArduinoInput line sx g).fallSpeed = g.fallSpeed) := by
  have hA : ∀ (sx : ℚ) (g : VariantA.Game), g.gameOver = true →
      VariantA.dropBlock sx g = g := by
    intro sx g h
    unfold VariantA.dropBlock
    rw [if_pos h]
  have hB : ∀ g : VariantB.Game, g.gameOver = true → VariantB.dropBlock g = g := by
    intro g h
    unfold VariantB.dropBlock
    rw [if_pos h]
  refine ⟨?_, ?_, hA, hB, ?_, ?_⟩
  · intro sx g h
    unfold VariantA.drawTick
    rw [if_pos h]
  · intro g h
    unfold VariantB.drawTick
    rw [if_pos h]
  · intro line g h
    unfold VariantB.handleArduinoInput
    dsimp only
    split_ifs with h1
    · exact hB g h
    · rfl
  · intro line sx g h
    unfold VariantA.handleArduinoInput
    split_ifs with h1 h2 h3
    · exact ⟨rfl, rfl, h, rfl, rfl⟩
    · exact ⟨rfl, rfl, h, rfl, rfl⟩
    · rw [hA sx g h]
      exact ⟨rfl, rfl, h, rfl, rfl⟩
    · exact ⟨rfl, rfl, h, rfl, rfl⟩

/-- Witness for C8 (amended), at concrete game-over states of both variants. -/
theorem gameOver_is_terminal_witness :
    VariantA.drawTick 123 stateC8a = stateC8a
    ∧ VariantB.drawTick stateC8b = stateC8b
    ∧ VariantB.dropBlock stateC8b = stateC8b
    ∧ VariantB.handleArduinoInput dropTok stateC8b = stateC8b
    ∧ (VariantA.handleArduinoInput dropTok 123 stateC8a).score = stateC8a.score :=
  ⟨gameOver_is_terminal.1 123 stateC8a rfl,
   gameOver_is_terminal.2.1 stateC8b rfl,
   gameOver_is_terminal.2.2.2.1 stateC8b rfl,
   gameOver_is_terminal.2.2.2.2.1 dropTok stateC8b rfl,
   (gameOver_is_terminal.2.2.2.2.2 dropTok 123 stateC8a rfl).1⟩

/-- Counterexample to C8 as stated: in Variant A, `handleArduinoInput` is
reached regardless of `gameOver` and does not guard `moveLeft`/`moveRight`,
so a serial `LEFT` token moves the (still `isFalling`) current block from
`x = 400` to `x = 390` even though the game is over. -/
theorem gameOver_is_terminal_cex :
    stateC8a.gameOver = true
    ∧ stateC8a.currentBlock.x = 400
    ∧ (VariantA.handleArduinoInput leftTok 123 stateC8a).currentBlock.x = 390 := by
  refine ⟨rfl, rfl, ?_⟩
  have h : VariantA.handleArduinoInput leftTok 123 stateC8a =
      { stateC8a with currentBlock := VariantA.moveLeft stateC8a.currentBlock } := by
    unfold VariantA.handleArduinoInput
    rw [if_pos rfl]
  rw [h]
  norm_num [VariantA.moveLeft, stateC8a]

/-! ## C6 — serial line decoding -/

lemma startsWithList_refl : ∀ l : List Char, startsWithList l l = true := by
  intro l
  induction l with
  | nil => rfl
  | cons c cs ih => simp [startsWithList, ih]

/-- C6 (amended): the button-variant host handler reacts to exactly the
trimmed lines that *start with* `DROP` (trailing content is tolerated — the
source tests `startsWith("DROP")`), by attempting a drop, and ignores every
other line; the firmware reacts to trimmed lines starting with `TILT:` by
feeding the `atol` of the remainder (which is `0` when the payload has no
leading digits — such lines are acted on, not discarded) to
`updateTiltTarget`, reacts to the exact line `RESET` by re-centering the
target, and ignores every other line. -/
theorem serial_decode_behavior (line : List Char) (g : VariantB.Game)
    (s : Firmware.ServoState) :
    (startsWithList (javaTrim line) dropTok = false →
      VariantB.handleArduinoInput line g = g)
    ∧ (startsWithList (javaTrim line) dropTok = true →
        VariantB.handleArduinoInput line g = VariantB.dropBlock g)
    ∧ (startsWithList (arduinoTrim line) tiltTag = true →
        Firmware.processSerialLine line s =
          Firmware.updateTiltTarget (stringToInt ((arduinoTrim line).drop 5)) s)
    ∧ (startsWithList (arduinoTrim line) tiltTag = false → arduinoTrim line = resetTok →
        Firmware.processSerialLine line s =
          { s with targetServoAngle := Firmware.SERVO_CENTER })
    ∧ (startsWithList (arduinoTrim line) tiltTag = false → arduinoTrim line ≠ resetTok →
        Firmware.processSerialLine line s = s) := by
  refine ⟨?_, ?_, ?_, ?_, ?_⟩
  · intro h
    unfold VariantB.handleArduinoInput
    dsimp only
    rw [if_neg]
    rintro (he | hs)
    · rw [he, startsWithList_refl] at h
      cases h
    · rw [hs] at h
      cases h
  · intro h
    unfold VariantB.handleArduinoInput
    dsimp only
    rw [if_pos (Or.inr h)]
  · intro h
    unfold Firmware.processSerialLine
    dsimp only
    rw [if_pos h]
  · intro h1 h2
    unfold Firmware.processSerialLine
    dsimp only
    rw [if_neg (by rw [h1]; intro hc; cases hc), if_pos h2]
  · intro h1 h2
    unfold Firmware.processSerialLine
    dsimp only
    rw [if_neg (by rw [h1]; intro hc; cases hc), if_neg h2]

/-- Witness for C6 (amended): an unrecognized line is ignored by both sides,
`RESET` re-centers the firmware target, and `TILT:7` sets the target from the
parsed value `7`. -/
theorem serial_decode_behavior_witness :
    VariantB.handleArduinoInput ['H', 'I'] stateC6g = stateC6g
    ∧ Firmware.processSerialLine ['H', 'I'] servoC6 = servoC6
    ∧ Firmware.processSerialLine ['R', 'E', 'S', 'E', 'T'] servoC6 =
        { servoC6 with targetServoAngle := Firmware.SERVO_CENTER }
    ∧ Firmware.processSerialLine ['T', 'I', 'L', 'T', ':', '7'] servoC6 =
        Firmware.updateTiltTarget 7 servoC6 := by
  refine ⟨(serial_decode_behavior ['H', 'I'] stateC6g servoC6).1 (by decide),
    (serial_decode_behavior ['H', 'I'] stateC6g servoC6).2.2.2.2 (by decide) (by decide),
    (serial_decode_behavior ['R', 'E', 'S', 'E', 'T'] stateC6g servoC6).2.2.2.1
      (by decide) (by decide), ?_⟩
  have h := (serial_decode_behavior ['T', 'I', 'L', 'T', ':', '7'] stateC6g servoC6).2.2.1
    (by decide)
  have h2 : stringToInt ((arduinoTrim ['T', 'I', 'L', 'T', ':', '7']).drop 5) = 7 := by decide
  rw [h, h2]

/-- Counterexample to C6 as stated.  First, the host acts on `DROPKICK`,
which is not an exact `DROP` match (here it flips `gameOver`, since the
block is outside the drop zone).  Second, the firmware does *not* discard a
`TILT:` line whose payload fails to parse: `TILT:abc` is processed as tilt
`0` and re-targets the servo from `100` to `90`. -/
theorem serial_decode_behavior_cex :
    javaTrim ['D', 'R', 'O', 'P', 'K', 'I', 'C', 'K'] ≠ dropTok
    ∧ stateC6g.gameOver = false
    ∧ (VariantB.handleArduinoInput ['D', 'R', 'O', 'P', 'K', 'I', 'C', 'K']
        stateC6g).gameOver = true
    ∧ stringToInt ['a', 'b', 'c'] = 0
    ∧ servoC6.targetServoAngle = 100
    ∧ (Firmware.processSerialLine ['T', 'I', 'L', 'T', ':', 'a', 'b', 'c']
        servoC6).targetServoAngle = 90
    ∧ (Firmware.processSerialLine ['T', 'I', 'L', 'T', ':', 'a', 'b', 'c']
        servoC6).targetServoAngle ≠ servoC6.targetServoAngle := by
  have hdrop : (VariantB.dropBlock stateC6g).gameOver = true := by
    unfold VariantB.dropBlock
    rw [if_neg (by simp [stateC6g]), if_neg (by simp [stateC6g]),
        if_neg (by norm_num [VariantB.dropZoneLeft, VariantB.dropZoneRight, stateC6g])]
  have hh : VariantB.handleArduinoInput ['D', 'R', 'O', 'P', 'K', 'I', 'C', 'K'] stateC6g =
      VariantB.dropBlock stateC6g := by
    unfold VariantB.handleArduinoInput
    dsimp only
    rw [if_pos (Or.inr (by decide))]
  refine ⟨by decide, rfl, ?_, by decide, rfl, by decide, by decide⟩
  rw [hh]
  exact hdrop
